import Mathlib

/-
  Verification of the scalper order-lifecycle and cycle-continuation engine.

  Shallow embedding of the core reconciliation code:
  - backend/app/services/order_monitor.py   (process_order_fill, place_opposite_order,
    complete_trading_cycle, calculate_cycle_pnl)
  - backend/app/services/order_service.py   (place_order_for_bot, leverage resolution)
  - backend/app/api/v1/endpoints/websocket.py (handle_order_update dispatch,
    _process_cancelled_order)
  - backend/app/services/trading/trading_service.py (_update_bot_pnl, the
    metric updates of _execute_trading_cycle, the _execute_bot loop)
  - backend/app/api/v1/endpoints/bots.py    (the cancellation sequences of the
    update / stop / delete flows, modelled as action traces)

  Prices, quantities and PnL are Python floats in the source; they are modelled
  as rationals, which is exact for every concrete value appearing in the claims.
  Database sessions are modelled by explicit state passing: a function returns
  the state as it is after the commits the source performs on that path, so a
  path that returns without committing leaves the state unchanged (the session
  context manager rolls uncommitted changes back).  The exchange adapter is a
  parameter mapping an order request to an optional response; none models the
  adapter call raising an exception.
-/

namespace Scalper

/-- Order lifecycle status, from app/models/order.py OrderStatus. -/
inductive OrderStatus where
  | PENDING
  | OPEN
  | PARTIALLY_FILLED
  | FILLED
  | CANCELLED
  | REJECTED
  | EXPIRED
  | FAILED
deriving Repr, DecidableEq

/-- Bot status, from app/models/bot.py BotStatus. -/
inductive BotStatus where
  | ACTIVE
  | STOPPED
  | ERROR
deriving Repr, DecidableEq

/-- Order side, from app/models/bot.py OrderSide. -/
inductive OrderSide where
  | BUY
  | SELL
deriving Repr, DecidableEq

/-- One exchange-facing order record, with the fields the engine reads and
writes: identity, classification, quantities, status, pairing link and
cancellation reason (the orders table per the models and the alembic migration
adding cancellation_reason). -/
structure Order where
  id : Nat
  bot_id : Nat
  exchange_order_id : Option String
  symbol : String
  side : OrderSide
  quantity : ℚ
  price : ℚ
  status : OrderStatus
  filled_quantity : Option ℚ
  filled_price : Option ℚ
  average_fill_price : Option ℚ
  commission : Option ℚ
  paired_order_id : Option Nat
  cancellation_reason : Option String
deriving Repr, DecidableEq

/-- One strategy instance, from app/models/bot.py Bot: configuration plus the
running metrics the engine mutates. -/
structure Bot where
  id : Nat
  ticker : String
  quantity : ℚ
  buy_price : ℚ
  sell_price : ℚ
  leverage : Option Nat
  infinite_loop : Bool
  status : BotStatus
  pnl : ℚ
  total_trades : Nat
  last_fill_side : Option OrderSide
  last_fill_price : Option ℚ
deriving Repr, DecidableEq

/-- The order store and bot aggregate visible to a database session. -/
structure DB where
  orders : List Order
  bots : List Bot
deriving Repr, DecidableEq

/-- Python falsy-or on an optional float: the fallback is taken when the value
is missing or equal to 0.0 (source idiom such as
filled_price or price). -/
def pyFloatOr (v : Option ℚ) (d : ℚ) : ℚ :=
  match v with
  | none => d
  | some x => if x = 0 then d else x

/-- Reading a float column directly (source idiom float(x) on a column whose
default is 0.0). -/
def pyFloat (v : Option ℚ) : ℚ := v.getD 0

/-- select(Order).where(Order.exchange_order_id == eoid) followed by
scalar_one_or_none. -/
def findOrderByExchangeId (db : DB) (eoid : String) : Option Order :=
  db.orders.find? (fun o => decide (o.exchange_order_id = some eoid))

/-- select(Order).where(Order.id == oid) followed by scalar_one_or_none. -/
def findOrderById (db : DB) (oid : Nat) : Option Order :=
  db.orders.find? (fun o => decide (o.id = oid))

/-- select(Bot).where(Bot.id == bid) followed by scalar_one_or_none. -/
def findBot (db : DB) (bid : Nat) : Option Bot :=
  db.bots.find? (fun b => decide (b.id = bid))

/-- Committing a mutation of the order row with the given id. -/
def updateOrder (db : DB) (oid : Nat) (f : Order → Order) : DB :=
  ⟨db.orders.map (fun o => if o.id = oid then f o else o), db.bots⟩

/-- Committing a mutation of the bot row with the given id. -/
def updateBot (db : DB) (bid : Nat) (f : Bot → Bot) : DB :=
  ⟨db.orders, db.bots.map (fun b => if b.id = bid then f b else b)⟩

/-- Committing a session add of a new order row. -/
def addOrder (db : DB) (o : Order) : DB :=
  ⟨db.orders ++ [o], db.bots⟩

/-- The request sent to the exchange adapter place_order, from
app/exchanges/base.py OrderRequest as built in order_service.py. -/
structure OrderRequest where
  symbol : String
  side : OrderSide
  quantity : ℚ
  price : ℚ
  leverage : Nat
deriving Repr, DecidableEq

/-- The adapter response used by place_order_for_bot. -/
structure OrderResponse where
  order_id : String
  filled_quantity : ℚ
  average_price : Option ℚ
deriving Repr, DecidableEq

/-- An exchange adapter: none models the adapter call raising. -/
def Adapter : Type := OrderRequest → Option OrderResponse

/-- An exchange-reported open position for a ticker (spec section 4.1
GetPosition).  The continuation code under verification never queries it. -/
structure Position where
  ticker : String
  leverage : Nat
deriving Repr, DecidableEq

/-- order_service.py lines 68-71: leverage = bot.leverage if bot.leverage
else 3 (Python falsy: missing or 0 gives the default 3). -/
def resolveBotLeverage (bot : Bot) : Nat :=
  match bot.leverage with
  | none => 3
  | some l => if l = 0 then 3 else l

/-- The OrderRequest built by place_order_for_bot (order_service.py
lines 67-85). -/
def buildOrderRequest (bot : Bot) (side : OrderSide) (price : ℚ)
    (leverage : Option Nat) : OrderRequest :=
  { symbol := bot.ticker
    side := side
    quantity := bot.quantity
    price := price
    leverage := match leverage with
      | some l => l
      | none => resolveBotLeverage bot }

/-- Result of place_order_for_bot: the request submitted to the exchange and,
when the adapter call succeeded, the PENDING order row created. -/
structure PlacementResult where
  request : OrderRequest
  created : Option Order
deriving Repr, DecidableEq

/-- order_service.py place_order_for_bot: build the request, call the
exchange, and on success create the PENDING order record (commission 0.0,
filled price dropped when the reported average price is missing or 0.0).
A missing response models the adapter raising, which the caller must catch. -/
def place_order_for_bot (bot : Bot) (side : OrderSide) (price : ℚ)
    (paired_order_id : Option Nat) (leverage : Option Nat)
    (exchange : Adapter) (newId : Nat) : PlacementResult :=
  let req := buildOrderRequest bot side price leverage
  match exchange req with
  | none => { request := req, created := none }
  | some resp =>
    { request := req
      created := some
        { id := newId
          bot_id := bot.id
          exchange_order_id := some resp.order_id
          symbol := bot.ticker
          side := side
          quantity := bot.quantity
          price := price
          status := OrderStatus.PENDING
          filled_quantity := some resp.filled_quantity
          filled_price := match resp.average_price with
            | none => none
            | some p => if p = 0 then none else some p
          average_fill_price := none
          commission := some 0
          paired_order_id := paired_order_id
          cancellation_reason := none } }

/-- Result of place_opposite_order: the attempted request, the created order
when placement succeeded, and the activity-log levels written. -/
structure OppositeResult where
  request : OrderRequest
  placed : Option Order
  logs : List String
deriving Repr, DecidableEq

/-- order_monitor.py place_opposite_order: SELL at the configured sell price
after a BUY fill and vice versa; a placement exception is caught, an ERROR
activity log is added and none is returned. -/
def place_opposite_order (filled_order : Order) (bot : Bot)
    (exchange : Adapter) (newId : Nat) : OppositeResult :=
  let side := if filled_order.side = OrderSide.BUY then OrderSide.SELL else OrderSide.BUY
  let price := if filled_order.side = OrderSide.BUY then bot.sell_price else bot.buy_price
  let res := place_order_for_bot bot side price (some filled_order.id) none exchange newId
  match res.created with
  | none => { request := res.request, placed := none, logs := ["ERROR"] }
  | some o => { request := res.request, placed := some o, logs := [] }

/-- order_monitor.py calculate_cycle_pnl: gross = (sell - buy) * qty with
fill prices falling back to the requested price (Python or, so a 0.0 fill
price also falls back), quantity from the sell leg, minus both commissions. -/
def calculate_cycle_pnl (buy_order sell_order : Order) : ℚ :=
  let buy_price := pyFloatOr buy_order.filled_price buy_order.price
  let sell_price := pyFloatOr sell_order.filled_price sell_order.price
  let quantity := pyFloatOr sell_order.filled_quantity sell_order.quantity
  let gross_pnl := (sell_price - buy_price) * quantity
  gross_pnl - pyFloatOr buy_order.commission 0 - pyFloatOr sell_order.commission 0

/-- order_monitor.py complete_trading_cycle: look up the paired buy leg,
compute the cycle PnL, add one trade and the PnL to the bot metrics and
commit; missing pairing or a missing paired row only logs and returns. -/
def complete_trading_cycle (sell_order : Order) (botId : Nat) (db : DB) :
    DB × List String :=
  match sell_order.paired_order_id with
  | none => (db, [])
  | some pid =>
    match findOrderById db pid with
    | none => (db, [])
    | some buy_order =>
      let pnl := calculate_cycle_pnl buy_order sell_order
      (updateBot db botId (fun b =>
        { b with total_trades := b.total_trades + 1, pnl := b.pnl + pnl }),
       ["SUCCESS"])

/-- Observable outcome of one process_order_fill call: the committed state,
the place-order requests submitted to the exchange, the activity-log levels
committed, and the boolean the function returns. -/
structure FillOutcome where
  db : DB
  requests : List OrderRequest
  logs : List String
  ret : Bool
deriving Repr, DecidableEq

/-- The FILLED row written by update_order_status (order_monitor.py lines
86-93): status FILLED, the reported filled quantity, and the reported fill
price when one was reported. -/
def filledRow (o : Order) (filled_quantity : ℚ) (filled_price : Option ℚ) :
    Order :=
  { o with
    status := OrderStatus.FILLED
    filled_quantity := some filled_quantity
    filled_price := match filled_price with
      | some p => some p
      | none => o.filled_price }

/-- The bot row after the last-fill update (order_monitor.py lines 107-110). -/
def lastFillRow (b : Bot) (side : OrderSide) (price : ℚ) : Bot :=
  { b with last_fill_side := some side, last_fill_price := some price }

/-- order_monitor.py process_order_fill: under the per-order lock, discard
partial fills, unknown orders, and orders already FILLED; otherwise mark the
order FILLED, re-read the owning bot and stop if it is not ACTIVE (those
early returns commit nothing, so the state is unchanged); otherwise record
last-fill data, place the opposite order (a failure is caught and logged),
link the pair, commit, and when the filled order is a SELL with a pairing
link run complete_trading_cycle. -/
def process_order_fill (eoid : String) (filled_quantity total_quantity : ℚ)
    (filled_price : Option ℚ) (db : DB) (exchange : Adapter) (newId : Nat) :
    FillOutcome :=
  if filled_quantity < total_quantity then ⟨db, [], [], false⟩
  else
    match findOrderByExchangeId db eoid with
    | none => ⟨db, [], [], false⟩
    | some order0 =>
      if order0.status = OrderStatus.FILLED then ⟨db, [], [], false⟩
      else
        let order1 : Order := filledRow order0 filled_quantity filled_price
        match findBot db order0.bot_id with
        | none => ⟨db, [], [], false⟩
        | some bot0 =>
          if bot0.status ≠ BotStatus.ACTIVE then ⟨db, [], [], false⟩
          else
            let bot1 : Bot :=
              lastFillRow bot0 order1.side (pyFloatOr filled_price order1.price)
            let opp := place_opposite_order order1 bot1 exchange newId
            match opp.placed with
            | some oppOrder =>
              let order2 := { order1 with paired_order_id := some oppOrder.id }
              let opp2 := { oppOrder with paired_order_id := some order1.id }
              let db1 :=
                addOrder
                  (updateBot (updateOrder db order0.id (fun _ => order2))
                    bot0.id (fun _ => bot1)) opp2
              let logs1 := ["SUCCESS", "INFO"]
              if order2.side = OrderSide.SELL ∧ order2.paired_order_id.isSome then
                let c := complete_trading_cycle order2 bot0.id db1
                ⟨c.1, [opp.request], logs1 ++ c.2, true⟩
              else ⟨db1, [opp.request], logs1, true⟩
            | none =>
              let db1 :=
                updateBot (updateOrder db order0.id (fun _ => order1))
                  bot0.id (fun _ => bot1)
              let logs1 := ["SUCCESS"] ++ opp.logs
              if order1.side = OrderSide.SELL ∧ order1.paired_order_id.isSome then
                let c := complete_trading_cycle order1 bot0.id db1
                ⟨c.1, [opp.request], logs1 ++ c.2, true⟩
              else ⟨db1, [opp.request], logs1, true⟩

/-- websocket.py _process_cancelled_order line 380: system-initiated
cancellation reasons. -/
def isSystemReason (r : Option String) : Bool :=
  match r with
  | some s => (["UPDATE", "STOP", "DELETE"] : List String).contains s
  | none => false

/-- Observable outcome of one _process_cancelled_order call. -/
structure CancelOutcome where
  db : DB
  logs : List String
deriving Repr, DecidableEq

/-- websocket.py _process_cancelled_order: look the order up by exchange id
(drop the event if unknown), set its status to CANCELLED, and branch on the
stored cancellation reason: a system reason (UPDATE, STOP, DELETE) commits
only the order change plus an INFO log; any other or missing reason is a
manual cancellation, which additionally sets the owning bot to STOPPED with a
WARNING log (when the bot row is missing only the order change commits). -/
def process_cancelled_order (eoid : String) (db : DB) : CancelOutcome :=
  match findOrderByExchangeId db eoid with
  | none => ⟨db, []⟩
  | some order0 =>
    let order1 := { order0 with status := OrderStatus.CANCELLED }
    if isSystemReason order0.cancellation_reason then
      ⟨updateOrder db order0.id (fun _ => order1), ["INFO"]⟩
    else
      match findBot db order0.bot_id with
      | none => ⟨updateOrder db order0.id (fun _ => order1), []⟩
      | some bot0 =>
        ⟨updateBot (updateOrder db order0.id (fun _ => order1)) bot0.id
          (fun b => { b with status := BotStatus.STOPPED }), ["WARNING"]⟩

/-- What the websocket order-update handler dispatches for an event
(websocket.py handle_order_update lines 213-258). -/
inductive WsAction where
  | processFill (filled_quantity total_quantity : ℚ)
  | processCancel
  | skip
deriving Repr, DecidableEq

/-- websocket.py handle_order_update fill and cancel dispatch: on status
filled, a reported filled quantity of exactly 0 with positive total is
replaced by the total (the exchange quirk), then the fill task is spawned
only when the (possibly replaced) filled quantity reaches the total and the
total is positive; on status cancelled the cancellation task is spawned;
anything else is skipped. -/
def handle_order_update_action (order_status : String)
    (filled_qty total_qty : ℚ) : WsAction :=
  if order_status = "filled" then
    let fq := if filled_qty = 0 ∧ total_qty > 0 then total_qty else filled_qty
    if fq ≥ total_qty ∧ total_qty > 0 then WsAction.processFill fq total_qty
    else WsAction.skip
  else if order_status = "cancelled" then WsAction.processCancel
  else WsAction.skip

/-- trading_service.py _update_bot_pnl: order the legs, revenue minus cost
minus both commissions (fill price falling back per Python or), added to the
bot cumulative PnL. -/
def update_bot_pnl (bot : Bot) (a b : Order) : Bot × ℚ :=
  let buy_order := if a.side = OrderSide.SELL then b else a
  let sell_order := if a.side = OrderSide.SELL then a else b
  let buy_cost :=
    pyFloatOr buy_order.average_fill_price buy_order.price *
      pyFloat buy_order.filled_quantity
  let sell_revenue :=
    pyFloatOr sell_order.average_fill_price sell_order.price *
      pyFloat sell_order.filled_quantity
  let commission := pyFloat buy_order.commission + pyFloat sell_order.commission
  let cycle_pnl := sell_revenue - buy_cost - commission
  ({ bot with pnl := bot.pnl + cycle_pnl }, cycle_pnl)

/-- trading_service.py _execute_trading_cycle lines 247-253: after both legs
fill, update the bot PnL and add 2 to total_trades. -/
def execute_trading_cycle_metrics (bot : Bot) (first_order second_order : Order) :
    Bot :=
  let r := update_bot_pnl bot first_order second_order
  { r.1 with total_trades := r.1.total_trades + 2 }

/-- trading_service.py _execute_bot main loop, counting trading cycles run:
while the bot is ACTIVE a cycle runs, and the loop breaks after one cycle
when the infinite-loop flag is off; fuel bounds the external steps. -/
def execute_bot_cycles (bot : Bot) : Nat → Nat
  | 0 => 0
  | fuel + 1 =>
    if bot.status = BotStatus.ACTIVE then
      if bot.infinite_loop then 1 + execute_bot_cycles bot fuel else 1
    else 0

/-- One database or exchange action performed by a bot update, stop or delete
flow (bots.py). -/
inductive DbAction where
  | writeReason (oid : Nat) (reason : String)
  | setStatusCancelled (oid : Nat)
  | flushDb
  | commitDb
  | exchangeCancel (oid : Nat)
  | exchangePlace
deriving Repr, DecidableEq

/-- The per-order cancellation sequence shared by the three flows: write the
cancellation reason and the CANCELLED status, flush the session (no commit),
then call the exchange cancel. -/
def cancelStep (reason : String) (oid : Nat) : List DbAction :=
  [DbAction.writeReason oid reason, DbAction.setStatusCancelled oid,
   DbAction.flushDb, DbAction.exchangeCancel oid]

/-- bots.py update_bot lines 301-317 and 380-435: cancel every pending order
with reason UPDATE (flush before each exchange call), place the replacement
order, then commit. -/
def update_bot_cancel_trace (pending : List Nat) : List DbAction :=
  (pending.flatMap (cancelStep "UPDATE")) ++ [DbAction.exchangePlace, DbAction.commitDb]

/-- bots.py stop_bot lines 672-689 and 726: cancel every pending order with
reason STOP (flush before each exchange call), set the bot STOPPED, then
commit. -/
def stop_bot_cancel_trace (pending : List Nat) : List DbAction :=
  (pending.flatMap (cancelStep "STOP")) ++ [DbAction.commitDb]

/-- bots.py delete_bot lines 497-512 and 526-545: cancel every pending order
with reason DELETE (flush before each exchange call), flush, delete the bot,
then commit. -/
def delete_bot_cancel_trace (pending : List Nat) : List DbAction :=
  (pending.flatMap (cancelStep "DELETE")) ++ [DbAction.flushDb, DbAction.commitDb]

/-- Whether an action is an exchange cancel call. -/
def isCancelCall : DbAction → Bool
  | DbAction.exchangeCancel _ => true
  | _ => false

/-- Whether an action is a database commit. -/
def isCommit : DbAction → Bool
  | DbAction.commitDb => true
  | _ => false

/-- Necessary condition of the ordering invariant of the claim: every
exchange cancel call in the trace is preceded by some database commit (the
invariant asks for a durable reason write, which requires a commit before
the cancel call). -/
def durableReasonBeforeCancel (tr : List DbAction) : Prop :=
  ∀ i, i < tr.length → isCancelCall (tr.getD i DbAction.flushDb) = true →
    ∃ j, j < i ∧ isCommit (tr.getD j DbAction.flushDb) = true

instance (tr : List DbAction) : Decidable (durableReasonBeforeCancel tr) := by
  unfold durableReasonBeforeCancel
  infer_instance

/-! Concrete scenario data used by the counterexamples and witnesses. -/

/-- A template order row; scenarios override the relevant fields. -/
def baseOrder : Order :=
  { id := 0
    bot_id := 1
    exchange_order_id := none
    symbol := "BTCUSDT"
    side := OrderSide.BUY
    quantity := 1
    price := 100
    status := OrderStatus.OPEN
    filled_quantity := none
    filled_price := none
    average_fill_price := none
    commission := some 0
    paired_order_id := none
    cancellation_reason := none }

/-- A template bot row; scenarios override the relevant fields. -/
def baseBot : Bot :=
  { id := 1
    ticker := "BTCUSDT"
    quantity := 1
    buy_price := 100
    sell_price := 110
    leverage := some 3
    infinite_loop := true
    status := BotStatus.ACTIVE
    pnl := 0
    total_trades := 0
    last_fill_side := none
    last_fill_price := none }

/-- An exchange adapter that accepts every order. -/
def okAdapter : Adapter := fun _ =>
  some { order_id := "NEW", filled_quantity := 0, average_price := none }

/-- An exchange adapter whose every call raises. -/
def downAdapter : Adapter := fun _ => none

/-- The BUY leg that opened the cycle: FILLED at 100, quantity 1,
commission 0.5, paired with the open SELL leg. -/
def openingBuyRow : Order :=
  { baseOrder with
    id := 1
    exchange_order_id := some "B1"
    side := OrderSide.BUY
    status := OrderStatus.FILLED
    filled_quantity := some 1
    filled_price := some 100
    commission := some (1/2)
    paired_order_id := some 2 }

/-- The open SELL leg of the cycle at 110 with commission 0.5, paired with
the opening BUY leg. -/
def pendingSellRow : Order :=
  { baseOrder with
    id := 2
    exchange_order_id := some "S2"
    side := OrderSide.SELL
    price := 110
    status := OrderStatus.OPEN
    commission := some (1/2)
    paired_order_id := some 1 }

/-- Mid-cycle state for the continuation scenarios: the BUY leg (id 1) is
FILLED at 100 with commission 0.5 and paired with the open SELL leg (id 2)
at 110 with commission 0.5; the loop flag of the bot is a parameter. -/
def dbCycle (loop : Bool) : DB :=
  ⟨[openingBuyRow, pendingSellRow], [{ baseBot with infinite_loop := loop }]⟩

/-! Lemmas about lookup after update, used by the universal theorems. -/

/-- find? commutes with a map that does not change the predicate value of any
element. -/
theorem find?_map_congr {α : Type} (l : List α) (p : α → Bool) (g : α → α)
    (hg : ∀ x, p (g x) = p x) :
    (l.map g).find? p = (l.find? p).map g := by
  induction l with
  | nil => rfl
  | cons h t ih =>
    by_cases hp : p h = true
    · rw [List.map_cons, List.find?_cons_of_pos _ (by rw [hg]; exact hp),
        List.find?_cons_of_pos _ hp]
      rfl
    · rw [List.map_cons, List.find?_cons_of_neg _ (by rw [hg]; exact hp),
        List.find?_cons_of_neg _ (by exact hp), ih]

/-- Order lookup after an order update, as a map over the previous lookup. -/
theorem findOrderById_updateOrder_map (db : DB) (oid : Nat) (f : Order → Order)
    (k : Nat)
    (hg : ∀ x : Order,
      decide ((if x.id = oid then f x else x).id = k) = decide (x.id = k)) :
    findOrderById (updateOrder db oid f) k =
      (findOrderById db k).map (fun x => if x.id = oid then f x else x) :=
  find?_map_congr db.orders (fun o => decide (o.id = k))
    (fun x => if x.id = oid then f x else x) hg

/-- Bot lookup after a bot update, as a map over the previous lookup. -/
theorem findBot_updateBot_map (db : DB) (bid : Nat) (f : Bot → Bot)
    (k : Nat)
    (hg : ∀ x : Bot,
      decide ((if x.id = bid then f x else x).id = k) = decide (x.id = k)) :
    findBot (updateBot db bid f) k =
      (findBot db k).map (fun x => if x.id = bid then f x else x) :=
  find?_map_congr db.bots (fun b => decide (b.id = k))
    (fun x => if x.id = bid then f x else x) hg

/-- Looking an order up by id after committing an update of that id yields
the updated row, provided the update preserves the id. -/
theorem findOrderById_updateOrder (db : DB) (oid : Nat) (f : Order → Order)
    (o : Order) (hfind : findOrderById db oid = some o)
    (hf : ∀ x, x.id = oid → (f x).id = oid) :
    findOrderById (updateOrder db oid f) oid = some (f o) := by
  have hfind2 : db.orders.find? (fun x => decide (x.id = oid)) = some o := hfind
  have hoid : o.id = oid := by simpa using List.find?_some hfind2
  rw [findOrderById_updateOrder_map db oid f oid ?hg, hfind]
  · simp [hoid]
  case hg =>
    intro x
    by_cases hx : x.id = oid
    · simp [hx, hf x hx]
    · simp [hx]

/-- Looking a bot up by id after committing an update of that id yields the
updated row, provided the update preserves the id. -/
theorem findBot_updateBot (db : DB) (bid : Nat) (f : Bot → Bot)
    (b : Bot) (hfind : findBot db bid = some b)
    (hf : ∀ x, x.id = bid → (f x).id = bid) :
    findBot (updateBot db bid f) bid = some (f b) := by
  have hfind2 : db.bots.find? (fun x => decide (x.id = bid)) = some b := hfind
  have hbid : b.id = bid := by simpa using List.find?_some hfind2
  rw [findBot_updateBot_map db bid f bid ?hg, hfind]
  · simp [hbid]
  case hg =>
    intro x
    by_cases hx : x.id = bid
    · simp [hx, hf x hx]
    · simp [hx]

/-- Updating a bot row leaves order lookups unchanged. -/
theorem findOrderById_updateBot (db : DB) (bid : Nat) (f : Bot → Bot)
    (oid : Nat) :
    findOrderById (updateBot db bid f) oid = findOrderById db oid := rfl

/-- Updating an order row leaves bot lookups unchanged. -/
theorem findBot_updateOrder (db : DB) (oid : Nat) (f : Order → Order)
    (bid : Nat) :
    findBot (updateOrder db oid f) bid = findBot db bid := rfl

/-- complete_trading_cycle never changes the order rows, and changes bot rows
only in the trade-count and pnl fields, so every bot keeps its status. -/
theorem complete_trading_cycle_shape (so : Order) (bid : Nat) (d : DB)
    (k : Nat) :
    (complete_trading_cycle so bid d).1.orders = d.orders ∧
    (findBot (complete_trading_cycle so bid d).1 k).map Bot.status =
      (findBot d k).map Bot.status := by
  unfold complete_trading_cycle
  rcases hp : so.paired_order_id with _ | pid
  · exact ⟨rfl, rfl⟩
  · dsimp only
    rcases hq : findOrderById d pid with _ | buy
    · exact ⟨rfl, rfl⟩
    · dsimp only
      refine ⟨rfl, ?_⟩
      rw [findBot_updateBot_map]
      · cases findBot d k with
        | none => rfl
        | some b => by_cases hb : b.id = bid <;> simp [hb]
      · intro x
        by_cases hx : x.id = bid <;> simp [hx]

/-! Claim C1 -/

/-- The stored order for the C1 counterexample: already CANCELLED, a
terminal status. -/
def cancelledOrder : Order :=
  { baseOrder with
    id := 1
    exchange_order_id := some "X1"
    status := OrderStatus.CANCELLED }

/-- Store containing only cancelledOrder and its bot. -/
def dbCancelled : DB := ⟨[cancelledOrder], [baseBot]⟩

/-- C1 (counterexample): an order whose stored status is the terminal value
CANCELLED is not left unchanged by a subsequent fill event: process_order_fill
re-processes it, rewrites its status to FILLED and places an opposite order,
because the duplicate check compares against FILLED only. -/
theorem terminal_status_reconciliation_cex :
    (findOrderByExchangeId dbCancelled "X1").map Order.status =
      some OrderStatus.CANCELLED ∧
    (process_order_fill "X1" 1 1 (some 100) dbCancelled okAdapter 10).requests ≠ [] ∧
    (findOrderById
        (process_order_fill "X1" 1 1 (some 100) dbCancelled okAdapter 10).db
        1).map Order.status = some OrderStatus.FILLED := by decide

/-- C1 (amended): idempotency holds only against the matching terminal state:
a fill event for an order already FILLED is discarded with no state change, no
placement and a false return, and a cancellation event for an order already
CANCELLED leaves that order row unchanged.  Fill events on the other terminal
statuses are re-processed (see the counterexample). -/
theorem filled_status_fill_event_noop :
    (∀ (eoid : String) (fq tq : ℚ) (fp : Option ℚ) (db : DB) (ex : Adapter)
      (nid : Nat) (o : Order),
      findOrderByExchangeId db eoid = some o → o.status = OrderStatus.FILLED →
      process_order_fill eoid fq tq fp db ex nid = ⟨db, [], [], false⟩) ∧
    (∀ (eoid : String) (db : DB) (o : Order),
      findOrderByExchangeId db eoid = some o → findOrderById db o.id = some o →
      o.status = OrderStatus.CANCELLED →
      findOrderById (process_cancelled_order eoid db).db o.id = some o) := by
  constructor
  · intro eoid fq tq fp db ex nid o hfo hst
    unfold process_order_fill
    by_cases hlt : fq < tq
    · rw [if_pos hlt]
    · rw [if_neg hlt, hfo]
      dsimp only
      rw [if_pos hst]
  · intro eoid db o hfo hid hst
    have horder : ({ o with status := OrderStatus.CANCELLED } : Order) = o := by
      cases o
      simp_all
    unfold process_cancelled_order
    rw [hfo]
    dsimp only
    by_cases hsys : isSystemReason o.cancellation_reason = true
    · simp only [hsys, if_true]
      rw [findOrderById_updateOrder db o.id
        (fun _ => { o with status := OrderStatus.CANCELLED }) o hid
        (fun x _ => rfl), horder]
    · simp only [hsys, if_false, Bool.false_eq_true]
      cases hb : findBot db o.bot_id with
      | none =>
        dsimp only
        rw [findOrderById_updateOrder db o.id
          (fun _ => { o with status := OrderStatus.CANCELLED }) o hid
          (fun x _ => rfl), horder]
      | some bot0 =>
        dsimp only
        rw [findOrderById_updateBot,
          findOrderById_updateOrder db o.id
            (fun _ => { o with status := OrderStatus.CANCELLED }) o hid
            (fun x _ => rfl), horder]

/-- C1 (witness): the amended statement applied to a concrete FILLED order
receiving a duplicate fill event and a concrete CANCELLED order receiving a
duplicate cancellation event. -/
theorem filled_status_fill_event_noop_witness :
    process_order_fill "B1" 1 1 (some 100) (dbCycle true) okAdapter 10 =
      ⟨dbCycle true, [], [], false⟩ ∧
    findOrderById (process_cancelled_order "X1" dbCancelled).db 1 =
      some cancelledOrder :=
  ⟨filled_status_fill_event_noop.1 "B1" 1 1 (some 100) (dbCycle true) okAdapter 10
      _ rfl rfl,
   filled_status_fill_event_noop.2 "X1" dbCancelled _ rfl rfl rfl⟩

/-! Claim C2 -/

/-- A pending order whose cancellation reason was pre-written by the stop
flow. -/
def orderReasonStop : Order :=
  { baseOrder with
    id := 3
    exchange_order_id := some "C3"
    status := OrderStatus.PENDING
    cancellation_reason := some "STOP" }

/-- Store containing only orderReasonStop and its bot. -/
def dbReasonStop : DB := ⟨[orderReasonStop], [baseBot]⟩

/-- A pending order with no stored cancellation reason. -/
def orderReasonNone : Order :=
  { baseOrder with
    id := 4
    exchange_order_id := some "C4"
    status := OrderStatus.PENDING
    cancellation_reason := none }

/-- Store containing only orderReasonNone and its bot. -/
def dbReasonNone : DB := ⟨[orderReasonNone], [baseBot]⟩

/-- C2: when a cancellation notification is processed, a stored reason in
the set UPDATE, STOP, DELETE marks the order CANCELLED and leaves every bot
row untouched, while a missing or MANUAL reason marks the order CANCELLED
and sets the owning bot to STOPPED. -/
theorem cancel_reason_disambiguation (eoid : String) (db : DB)
    (o : Order) (b : Bot)
    (hfo : findOrderByExchangeId db eoid = some o)
    (hid : findOrderById db o.id = some o)
    (hb : findBot db o.bot_id = some b) :
    (isSystemReason o.cancellation_reason = true →
      findOrderById (process_cancelled_order eoid db).db o.id =
        some { o with status := OrderStatus.CANCELLED } ∧
      (process_cancelled_order eoid db).db.bots = db.bots) ∧
    ((o.cancellation_reason = none ∨ o.cancellation_reason = some "MANUAL") →
      findOrderById (process_cancelled_order eoid db).db o.id =
        some { o with status := OrderStatus.CANCELLED } ∧
      findBot (process_cancelled_order eoid db).db o.bot_id =
        some { b with status := BotStatus.STOPPED }) := by
  have hb2 : db.bots.find? (fun x => decide (x.id = o.bot_id)) = some b := hb
  have hbid : b.id = o.bot_id := by simpa using List.find?_some hb2
  constructor
  · intro hsys
    have hres : process_cancelled_order eoid db =
        ⟨updateOrder db o.id
          (fun _ => { o with status := OrderStatus.CANCELLED }), ["INFO"]⟩ := by
      unfold process_cancelled_order
      rw [hfo]
      dsimp only
      rw [if_pos hsys]
    rw [hres]
    exact ⟨findOrderById_updateOrder db o.id _ o hid (fun x _ => rfl), rfl⟩
  · intro hreason
    have hsys : ¬ isSystemReason o.cancellation_reason = true := by
      rcases hreason with h | h <;> rw [h] <;> decide
    have hres : process_cancelled_order eoid db =
        ⟨updateBot
          (updateOrder db o.id (fun _ => { o with status := OrderStatus.CANCELLED }))
          b.id (fun x => { x with status := BotStatus.STOPPED }), ["WARNING"]⟩ := by
      unfold process_cancelled_order
      rw [hfo]
      dsimp only
      rw [if_neg hsys, hb]
    rw [hres]
    constructor
    · rw [findOrderById_updateBot]
      exact findOrderById_updateOrder db o.id _ o hid (fun x _ => rfl)
    · rw [← hbid]
      refine findBot_updateBot _ b.id _ b ?hfind (fun x hx => hx)
      rw [findBot_updateOrder, hbid]
      exact hb

/-- C2 (witness): the theorem applied to a concrete STOP-reason cancellation
(bot rows untouched) and a concrete reason-less cancellation (bot stopped). -/
theorem cancel_reason_disambiguation_witness :
    (process_cancelled_order "C3" dbReasonStop).db.bots = dbReasonStop.bots ∧
    findBot (process_cancelled_order "C4" dbReasonNone).db orderReasonNone.bot_id =
      some { baseBot with status := BotStatus.STOPPED } :=
  ⟨((cancel_reason_disambiguation "C3" dbReasonStop orderReasonStop baseBot
      rfl rfl rfl).1 (by decide)).2,
   ((cancel_reason_disambiguation "C4" dbReasonNone orderReasonNone baseBot
      rfl rfl rfl).2 (Or.inl rfl)).2⟩

/-! Claim C3 -/

/-- C3: in each of the update, stop and delete flows the cancellation reason
write is only flushed inside the open transaction before the exchange cancel
call; the first commit of each flow comes after the exchange call, so in none
of the flows is the reason write durable (committed) strictly before the
exchange cancel call is issued.  The source comments state the intent to
commit before the exchange call, so this is a divergence of the code from its
own documentation. -/
theorem cancel_flows_no_commit_before_exchange_call :
    stop_bot_cancel_trace [7] =
      [DbAction.writeReason 7 "STOP", DbAction.setStatusCancelled 7,
       DbAction.flushDb, DbAction.exchangeCancel 7, DbAction.commitDb] ∧
    ¬ durableReasonBeforeCancel (update_bot_cancel_trace [7]) ∧
    ¬ durableReasonBeforeCancel (stop_bot_cancel_trace [7]) ∧
    ¬ durableReasonBeforeCancel (delete_bot_cancel_trace [7]) := by decide

/-! Claim C4 -/

/-- The BUY leg of the claimed cycle: filled at 100, quantity 1,
commission 0.5, paired with the SELL leg. -/
def buyLeg : Order :=
  { baseOrder with
    id := 1
    exchange_order_id := some "B1"
    side := OrderSide.BUY
    status := OrderStatus.FILLED
    filled_quantity := some 1
    filled_price := some 100
    average_fill_price := some 100
    commission := some (1/2)
    paired_order_id := some 2 }

/-- The SELL leg of the claimed cycle: filled at 110, quantity 1,
commission 0.5, paired with the BUY leg. -/
def sellLeg : Order :=
  { baseOrder with
    id := 2
    exchange_order_id := some "S2"
    side := OrderSide.SELL
    price := 110
    status := OrderStatus.FILLED
    filled_quantity := some 1
    filled_price := some 110
    average_fill_price := some 110
    commission := some (1/2)
    paired_order_id := some 1 }

/-- Store holding the two completed legs and their bot. -/
def dbCompleted : DB := ⟨[buyLeg, sellLeg], [baseBot]⟩

/-- C4 (counterexample): for exactly the claimed cycle (BUY filled at 100,
qty 1, commission 0.5; SELL filled at 110, qty 1, commission 0.5), the
TradingService cycle path cited by the claim increments total_trades by 2,
one per leg, not by exactly 1. -/
theorem cycle_trade_count_cex :
    (execute_trading_cycle_metrics baseBot buyLeg sellLeg).total_trades =
      baseBot.total_trades + 2 ∧
    (execute_trading_cycle_metrics baseBot buyLeg sellLeg).total_trades ≠
      baseBot.total_trades + 1 := by decide

/-- C4 (amended): for the claimed cycle the computed net PnL is 9.0 in both
implementations and the cumulative bot PnL rises by exactly 9.0 in both, but
the trade counter rises by exactly 1 only in the order-monitor completion
path; the TradingService cycle path raises it by 2 (one per leg). -/
theorem cycle_pnl_and_trade_count_amended :
    calculate_cycle_pnl buyLeg sellLeg = 9 ∧
    (complete_trading_cycle sellLeg 1 dbCompleted).1.bots =
      [{ baseBot with
          total_trades := baseBot.total_trades + 1
          pnl := baseBot.pnl + 9 }] ∧
    (execute_trading_cycle_metrics baseBot buyLeg sellLeg).pnl =
      baseBot.pnl + 9 ∧
    (execute_trading_cycle_metrics baseBot buyLeg sellLeg).total_trades =
      baseBot.total_trades + 2 := by
  have h9 : calculate_cycle_pnl buyLeg sellLeg = 9 := by
    unfold calculate_cycle_pnl pyFloatOr
    norm_num [buyLeg, sellLeg, baseOrder]
  refine ⟨h9, ?_, ?_, ?_⟩
  · have hres : (complete_trading_cycle sellLeg 1 dbCompleted).1 =
        updateBot dbCompleted 1 (fun b =>
          { b with
            total_trades := b.total_trades + 1
            pnl := b.pnl + calculate_cycle_pnl buyLeg sellLeg }) := rfl
    rw [hres]
    simp only [h9]
    norm_num [updateBot, dbCompleted, baseBot]
  · simp [execute_trading_cycle_metrics, update_bot_pnl, pyFloatOr, pyFloat,
      buyLeg, sellLeg, baseBot, baseOrder]
    norm_num
  · simp [execute_trading_cycle_metrics, update_bot_pnl, pyFloatOr, pyFloat,
      buyLeg, sellLeg, baseBot, baseOrder]

/-! Claim C5 -/

/-- C5 (counterexample): a bot with the infinite-loop flag off, holding the
cycle of dbCycle, receives the fill of its SELL leg; the call settles the
cycle (total trades become 1) and nevertheless submits a new opposite BUY
order to the exchange and records it as a new PENDING row. -/
theorem finite_loop_still_places_opposite_cex :
    (dbCycle false).bots.map Bot.infinite_loop = [false] ∧
    (process_order_fill "S2" 1 1 (some 110) (dbCycle false) okAdapter 10).requests ≠ [] ∧
    (findOrderById
        (process_order_fill "S2" 1 1 (some 110) (dbCycle false) okAdapter 10).db
        10).map Order.status = some OrderStatus.PENDING ∧
    (findBot
        (process_order_fill "S2" 1 1 (some 110) (dbCycle false) okAdapter 10).db
        1).map Bot.total_trades = some 1 := by decide

/-- C5 (amended): the fill-driven continuation never consults the
infinite-loop flag — the exchange requests submitted by process_order_fill
are identical whatever value the owning bot flag holds — and only the
TradingService polling loop honours the flag, running at most one cycle when
it is off. -/
theorem loop_flag_placement_independence :
    (∀ (eoid : String) (fq tq : ℚ) (fp : Option ℚ) (orders : List Order)
       (b : Bot) (v : Bool) (ex : Adapter) (nid : Nat),
      (process_order_fill eoid fq tq fp
        ⟨orders, [{ b with infinite_loop := v }]⟩ ex nid).requests =
      (process_order_fill eoid fq tq fp ⟨orders, [b]⟩ ex nid).requests) ∧
    (∀ (b : Bot) (fuel : Nat), b.infinite_loop = false →
      execute_bot_cycles b fuel ≤ 1) := by
  constructor
  · intro eoid fq tq fp orders b v ex nid
    unfold process_order_fill
    by_cases hlt : fq < tq
    · simp only [if_pos hlt]
    · simp only [if_neg hlt]
      unfold findOrderByExchangeId
      dsimp only
      cases ho : orders.find? (fun o => decide (o.exchange_order_id = some eoid)) with
      | none => rfl
      | some o =>
        dsimp only
        by_cases hst : o.status = OrderStatus.FILLED
        · simp only [if_pos hst]
        · simp only [if_neg hst]
          unfold findBot
          dsimp only
          by_cases hid : b.id = o.bot_id
          · rw [List.find?_cons_of_pos _ (by simpa using hid),
              List.find?_cons_of_pos _ (by simpa using hid)]
            dsimp only
            by_cases hact : b.status ≠ BotStatus.ACTIVE
            · simp only [if_pos hact]
            · simp only [if_neg hact]
              unfold place_opposite_order place_order_for_bot buildOrderRequest
                resolveBotLeverage lastFillRow filledRow
              dsimp only
              split <;> (try split) <;> rfl
          · rw [List.find?_cons_of_neg _ (by simpa using hid),
              List.find?_cons_of_neg _ (by simpa using hid), List.find?_nil]
  · intro b fuel h
    cases fuel with
    | zero => simp [execute_bot_cycles]
    | succ n =>
      simp only [execute_bot_cycles, h]
      by_cases hs : b.status = BotStatus.ACTIVE <;> simp [hs]

/-- C5 (witness): the independence statement applied to the concrete cycle
store, and the loop bound applied to a concrete flag-off bot with fuel 5. -/
theorem loop_flag_placement_independence_witness :
    (process_order_fill "S2" 1 1 (some 110)
        ⟨(dbCycle false).orders, [{ baseBot with infinite_loop := false }]⟩
        okAdapter 10).requests =
      (process_order_fill "S2" 1 1 (some 110)
        ⟨(dbCycle false).orders, [baseBot]⟩ okAdapter 10).requests ∧
    execute_bot_cycles { baseBot with infinite_loop := false } 5 ≤ 1 :=
  ⟨loop_flag_placement_independence.1 "S2" 1 1 (some 110) (dbCycle false).orders
      baseBot false okAdapter 10,
   loop_flag_placement_independence.2 { baseBot with infinite_loop := false } 5 rfl⟩

/-! Claim C6 -/

/-- An exchange-reported open position for the ticker, locking leverage 5. -/
def openPosition : Position := { ticker := "BTCUSDT", leverage := 5 }

/-- C6 (counterexample): with an open position reporting leverage 5 for the
ticker and a bot configured with leverage 3, the continuation submits the
opposite order with leverage 3, not the position leverage 5: the code never
queries the position. -/
theorem position_leverage_ignored_cex :
    openPosition.leverage = 5 ∧ baseBot.leverage = some 3 ∧
    (place_opposite_order buyLeg baseBot okAdapter 10).request.leverage = 3 ∧
    (place_opposite_order buyLeg baseBot okAdapter 10).request.leverage ≠
      openPosition.leverage := by decide

/-- C6 (amended): the continuation always submits the opposite order with the
bot-configured leverage (default 3 when the configured value is missing or 0);
the leverage of any open position is never consulted, so whenever a position
reports a leverage different from the bot-resolved one the submitted leverage
differs from the position leverage. -/
theorem continuation_uses_bot_leverage (filled : Order) (bot : Bot)
    (ex : Adapter) (nid : Nat) (pos : Position)
    (hne : pos.leverage ≠ resolveBotLeverage bot) :
    (place_opposite_order filled bot ex nid).request.leverage =
      resolveBotLeverage bot ∧
    (place_opposite_order filled bot ex nid).request.leverage ≠ pos.leverage := by
  have hl : (place_opposite_order filled bot ex nid).request.leverage =
      resolveBotLeverage bot := by
    unfold place_opposite_order place_order_for_bot
    dsimp only
    split <;> (try split) <;> rfl
  exact ⟨hl, by rw [hl]; exact fun h => hne h.symm⟩

/-- C6 (witness): the amended statement applied to the concrete filled BUY
leg, bot and leverage-5 position. -/
theorem continuation_uses_bot_leverage_witness :
    (place_opposite_order buyLeg baseBot okAdapter 10).request.leverage =
      resolveBotLeverage baseBot ∧
    (place_opposite_order buyLeg baseBot okAdapter 10).request.leverage ≠
      openPosition.leverage :=
  continuation_uses_bot_leverage buyLeg baseBot okAdapter 10 openPosition
    (by decide)

/-! Claim C7 -/

/-- C7 (counterexample): a notification with status filled, reported filled
quantity 1 and total quantity 2 is not clamped to the total: the handler
skips it and dispatches no fill processing, so the universal clamping
statement fails for nonzero inconsistent filled quantities. -/
theorem partial_fill_not_clamped_cex :
    handle_order_update_action "filled" 1 2 = WsAction.skip ∧
    handle_order_update_action "filled" 1 2 ≠ WsAction.processFill 2 2 := by
  decide

/-- C7 (amended): the quirk clamp fires exactly when the reported filled
quantity is 0 with a positive total: a filled report of 0 out of 2 is
dispatched as a complete fill of quantity 2 and proceeds through
continuation, while any nonzero reported filled quantity is left unclamped
and dispatched only when it already reaches the total. -/
theorem filled_zero_quirk_clamp_amended :
    handle_order_update_action "filled" 0 2 = WsAction.processFill 2 2 ∧
    (process_order_fill "S2" 2 2 (some 110) (dbCycle true) okAdapter 10).ret =
      true ∧
    (∀ f t : ℚ, f ≠ 0 →
      handle_order_update_action "filled" f t =
        if f ≥ t ∧ t > 0 then WsAction.processFill f t else WsAction.skip) := by
  refine ⟨by decide, by decide, ?_⟩
  intro f t hf
  unfold handle_order_update_action
  rw [if_pos rfl]
  dsimp only
  have hcl : (if f = 0 ∧ t > 0 then t else f) = f := if_neg (fun h => hf h.1)
  rw [hcl]

/-- C7 (witness): the amended characterization applied to the inconsistent
report of 1 filled out of 2. -/
theorem filled_zero_quirk_clamp_amended_witness :
    handle_order_update_action "filled" 1 2 =
      (if (1 : ℚ) ≥ 2 ∧ (2 : ℚ) > 0 then WsAction.processFill 1 2
       else WsAction.skip) :=
  filled_zero_quirk_clamp_amended.2.2 1 2 (by decide)

/-! Claim C8 -/

/-- C8 (counterexample): the SELL-leg fill of the cycle store is processed
while every exchange call raises; placement of the opposite order fails, yet
no order row ends in FAILED (the filled order stays FILLED) and the bot stays
ACTIVE rather than transitioning to ERROR — the failure leaves only an ERROR
activity log. -/
theorem placement_failure_no_failed_mark_cex :
    (process_order_fill "S2" 1 1 (some 110) (dbCycle true) downAdapter 10).logs =
      ["SUCCESS", "ERROR", "SUCCESS"] ∧
    (findOrderById
        (process_order_fill "S2" 1 1 (some 110) (dbCycle true) downAdapter 10).db
        2).map Order.status = some OrderStatus.FILLED ∧
    (findBot
        (process_order_fill "S2" 1 1 (some 110) (dbCycle true) downAdapter 10).db
        1).map Bot.status = some BotStatus.ACTIVE ∧
    ((process_order_fill "S2" 1 1 (some 110) (dbCycle true) downAdapter 10).db.orders.filter
        (fun o => decide (o.status = OrderStatus.FAILED))) = [] := by decide

/-- C8 (amended): whenever placement of the opposite order fails during
continuation, exactly one placement attempt is made (no retry in the call),
the failure is recorded only as an ERROR activity log, the just-filled order
keeps its FILLED status (it is not marked FAILED), and the owning bot stays
in its previous status ACTIVE (it does not transition to ERROR). -/
theorem placement_failure_logged_no_retry (eoid : String) (fq tq : ℚ)
    (fp : Option ℚ) (db : DB) (ex : Adapter) (nid : Nat) (o : Order) (b : Bot)
    (hfo : findOrderByExchangeId db eoid = some o)
    (hid : findOrderById db o.id = some o)
    (hb : findBot db o.bot_id = some b)
    (hlt : ¬ fq < tq)
    (hst : ¬ o.status = OrderStatus.FILLED)
    (hact : b.status = BotStatus.ACTIVE)
    (hex : ∀ r, ex r = none) :
    (process_order_fill eoid fq tq fp db ex nid).requests.length = 1 ∧
    "ERROR" ∈ (process_order_fill eoid fq tq fp db ex nid).logs ∧
    (findOrderById (process_order_fill eoid fq tq fp db ex nid).db o.id).map
      Order.status = some OrderStatus.FILLED ∧
    (findBot (process_order_fill eoid fq tq fp db ex nid).db o.bot_id).map
      Bot.status = some BotStatus.ACTIVE := by
  have hb2 : db.bots.find? (fun x => decide (x.id = o.bot_id)) = some b := hb
  have hbid : b.id = o.bot_id := by simpa using List.find?_some hb2
  have hnact : ¬ b.status ≠ BotStatus.ACTIVE := fun h => h hact
  have hshape : process_order_fill eoid fq tq fp db ex nid =
      (let o1 := filledRow o fq fp
       let b1 := lastFillRow b o.side (pyFloatOr fp o.price)
       let db1 := updateBot (updateOrder db o.id (fun _ => o1)) b.id (fun _ => b1)
       let req := buildOrderRequest b1
         (if o.side = OrderSide.BUY then OrderSide.SELL else OrderSide.BUY)
         (if o.side = OrderSide.BUY then b.sell_price else b.buy_price) none
       if o.side = OrderSide.SELL ∧ o.paired_order_id.isSome = true then
         ⟨(complete_trading_cycle o1 b.id db1).1, [req],
          ["SUCCESS", "ERROR"] ++ (complete_trading_cycle o1 b.id db1).2, true⟩
       else ⟨db1, [req], ["SUCCESS", "ERROR"], true⟩) := by
    unfold process_order_fill place_opposite_order place_order_for_bot
    rw [if_neg hlt, hfo]
    dsimp only
    rw [if_neg hst, hb]
    dsimp only
    rw [if_neg hnact, hex]
    rfl
  rw [hshape]
  dsimp only
  have horder1 :
      findOrderById
        (updateBot (updateOrder db o.id (fun _ => filledRow o fq fp)) b.id
          (fun _ => lastFillRow b o.side (pyFloatOr fp o.price))) o.id =
      some (filledRow o fq fp) := by
    rw [findOrderById_updateBot]
    exact findOrderById_updateOrder db o.id (fun _ => filledRow o fq fp) o hid
      (fun x _ => rfl)
  have hbot1 :
      findBot
        (updateBot (updateOrder db o.id (fun _ => filledRow o fq fp)) b.id
          (fun _ => lastFillRow b o.side (pyFloatOr fp o.price))) o.bot_id =
      some (lastFillRow b o.side (pyFloatOr fp o.price)) := by
    rw [← hbid]
    refine findBot_updateBot _ b.id _ b ?hfind (fun x _ => rfl)
    rw [findBot_updateOrder, hbid]
    exact hb
  by_cases hcyc : o.side = OrderSide.SELL ∧ o.paired_order_id.isSome = true
  · simp only [if_pos hcyc]
    refine ⟨rfl, by simp, ?_, ?_⟩
    · have hsame :
          findOrderById
            (complete_trading_cycle (filledRow o fq fp) b.id
              (updateBot (updateOrder db o.id (fun _ => filledRow o fq fp)) b.id
                (fun _ => lastFillRow b o.side (pyFloatOr fp o.price)))).1 o.id =
          findOrderById
            (updateBot (updateOrder db o.id (fun _ => filledRow o fq fp)) b.id
              (fun _ => lastFillRow b o.side (pyFloatOr fp o.price))) o.id := by
        unfold findOrderById
        rw [(complete_trading_cycle_shape _ _ _ 0).1]
      rw [hsame, horder1]
      rfl
    · rw [(complete_trading_cycle_shape _ _ _ o.bot_id).2, hbot1]
      simp [lastFillRow, hact]
  · simp only [if_neg hcyc]
    refine ⟨rfl, by simp, ?_, ?_⟩
    · rw [horder1]
      rfl
    · rw [hbot1]
      simp [lastFillRow, hact]

/-- C8 (witness): the amended statement applied to the concrete cycle store
with every exchange call failing. -/
theorem placement_failure_logged_no_retry_witness :
    (process_order_fill "S2" 1 1 (some 110) (dbCycle true) downAdapter 10).requests.length = 1 ∧
    "ERROR" ∈ (process_order_fill "S2" 1 1 (some 110) (dbCycle true) downAdapter 10).logs ∧
    (findOrderById
        (process_order_fill "S2" 1 1 (some 110) (dbCycle true) downAdapter 10).db
        pendingSellRow.id).map Order.status = some OrderStatus.FILLED ∧
    (findBot
        (process_order_fill "S2" 1 1 (some 110) (dbCycle true) downAdapter 10).db
        pendingSellRow.bot_id).map Bot.status = some BotStatus.ACTIVE :=
  placement_failure_logged_no_retry "S2" 1 1 (some 110) (dbCycle true)
    downAdapter 10 pendingSellRow { baseBot with infinite_loop := true }
    rfl rfl rfl (by decide) (by decide) rfl (fun _ => rfl)

/-! Claim C9 -/

/-- A bot that is stopped, with one open order. -/
def stoppedBot : Bot := { baseBot with status := BotStatus.STOPPED }

/-- Store with an open order owned by the stopped bot. -/
def dbStopped : DB :=
  ⟨[{ baseOrder with id := 5, exchange_order_id := some "X5" }], [stoppedBot]⟩

/-- C9: when the owning bot re-read after the fill is recorded is not ACTIVE,
process_order_fill places no opposite order, submits nothing to the exchange,
commits nothing, and returns false without error. -/
theorem inactive_bot_no_opposite_order (eoid : String) (fq tq : ℚ)
    (fp : Option ℚ) (db : DB) (ex : Adapter) (nid : Nat) (o : Order) (b : Bot)
    (hfo : findOrderByExchangeId db eoid = some o)
    (hb : findBot db o.bot_id = some b)
    (hact : b.status ≠ BotStatus.ACTIVE) :
    process_order_fill eoid fq tq fp db ex nid = ⟨db, [], [], false⟩ := by
  unfold process_order_fill
  by_cases hlt : fq < tq
  · rw [if_pos hlt]
  · rw [if_neg hlt, hfo]
    dsimp only
    by_cases hst : o.status = OrderStatus.FILLED
    · rw [if_pos hst]
    · rw [if_neg hst, hb]
      dsimp only
      rw [if_pos hact]

/-- C9 (witness): the theorem applied to a stopped bot whose open order
reports a complete fill. -/
theorem inactive_bot_no_opposite_order_witness :
    process_order_fill "X5" 1 1 (some 100) dbStopped okAdapter 10 =
      ⟨dbStopped, [], [], false⟩ :=
  inactive_bot_no_opposite_order "X5" 1 1 (some 100) dbStopped okAdapter 10
    { baseOrder with id := 5, exchange_order_id := some "X5" } stoppedBot
    rfl rfl (by decide)

/-! Claim C10 -/

/-- The outcome of processing the SELL-leg fill of the cycle store with a
succeeding exchange. -/
def c10out : FillOutcome :=
  process_order_fill "S2" 1 1 (some 110) (dbCycle true) okAdapter 10

/-- The opposite BUY row the continuation creates in that call: PENDING,
unfilled, priced at the configured buy price 100, commission 0, paired with
the SELL leg. -/
def newBuyRow : Order :=
  { baseOrder with
    id := 10
    exchange_order_id := some "NEW"
    side := OrderSide.BUY
    status := OrderStatus.PENDING
    filled_quantity := some 0
    filled_price := none
    commission := some 0
    paired_order_id := some 2 }

/-- The SELL leg as reconciled by that call: FILLED at 110 and re-paired to
the new BUY row. -/
def filledSellRow : Order :=
  { baseOrder with
    id := 2
    exchange_order_id := some "S2"
    side := OrderSide.SELL
    price := 110
    status := OrderStatus.FILLED
    filled_quantity := some 1
    filled_price := some 110
    commission := some (1/2)
    paired_order_id := some 10 }

/-- C10: processing the SELL-leg fill overwrites the pairing link of the SELL
order to the newly placed BUY row (id 10) before cycle completion runs, so
complete_trading_cycle computes PnL against the new, unfilled BUY row, whose
missing fill price falls back to its requested price — the configured buy
price 100 — and whose commission is 0: the bot PnL rises by 19/2 = 9.5, not
by the 9 that the opening BUY leg (commission 0.5) would give. -/
theorem sell_fill_pairs_new_buy_for_pnl :
    (findOrderById c10out.db 2).map Order.paired_order_id = some (some 10) ∧
    findOrderById c10out.db 10 = some newBuyRow ∧
    (findBot c10out.db 1).map Bot.pnl =
      some (baseBot.pnl + calculate_cycle_pnl newBuyRow filledSellRow) ∧
    calculate_cycle_pnl newBuyRow filledSellRow = 19/2 ∧
    calculate_cycle_pnl openingBuyRow filledSellRow = 9 := by
  refine ⟨by decide, by decide, rfl, ?_, ?_⟩
  · unfold calculate_cycle_pnl pyFloatOr
    norm_num [newBuyRow, filledSellRow, baseOrder]
  · unfold calculate_cycle_pnl pyFloatOr
    norm_num [openingBuyRow, filledSellRow, baseOrder]

end Scalper
